import Mathlib

/-!
Verification of the amp-web-push messaging substrate.

Shallow embedding of:
- `extensions/amp-web-push/0.1/window-messenger.js` (WindowMessenger)
- `extensions/amp-web-push/0.1/worker-messenger.js` (WorkerMessenger and
  WorkerMessengerReplyBuffer)
- `extensions/amp-web-push/publisher-files/helper-frame.js` (AmpWebPushHelperFrame)

JavaScript objects used as string-keyed maps are embedded as association
lists (`alookup` / `aset` / `aremove` mirror property read, property
assignment and `delete`).  Callbacks and promise resolvers are identified by
opaque tokens (`Nat`); a function's observable effect is returned as data
(which callbacks were invoked, what a pending promise was resolved with).
Exceptions are embedded as `Option`/`Except` (`none`/`.error` = throw).
-/

namespace AmpWebPush

/-- A JavaScript value, as far as the messaging substrate inspects one:
`undefined` and `null` are distinct, and payload data is opaque. -/
inductive JsVal
  | undef
  | null
  | bool (b : Bool)
  | num (n : Int)
  | str (s : String)
deriving DecidableEq, Repr

/-- Property read on a string-keyed JS object: `obj[key]`. -/
def alookup {α : Type} : List (String × α) → String → Option α
  | [], _ => none
  | (k, v) :: rest, key => if k = key then some v else alookup rest key

/-- Property assignment on a string-keyed JS object: `obj[key] = v`. -/
def aset {α : Type} : List (String × α) → String → α → List (String × α)
  | [], key, v => [(key, v)]
  | (k, w) :: rest, key, v =>
      if k = key then (key, v) :: rest else (k, w) :: aset rest key v

/-- Property deletion on a string-keyed JS object: `delete obj[key]`. -/
def aremove {α : Type} : List (String × α) → String → List (String × α)
  | [], _ => []
  | (k, w) :: rest, key =>
      if k = key then aremove rest key else (k, w) :: aremove rest key

/-! ## WindowMessenger: send / sendReply_ / onChannelMessageReceived_

From `window-messenger.js`.  `this.messages` maps a correlation id to the
metadata object `{message, topic, promiseResolver}`; the resolver itself is
not stored (resolution is reported in the step's result).  `this.listeners`
maps a topic to the array of registered callbacks, identified by tokens. -/

/-- One entry of `this.messages`: `{message, topic, promiseResolver}`
(line 393 and 422 of window-messenger.js), minus the resolver. -/
structure PendingExchange where
  message : JsVal
  topic : String
deriving DecidableEq, Repr

/-- The per-instance multiplexing state of a connected WindowMessenger:
`this.messages` and `this.listeners`. -/
structure MessengerState where
  messages : List (String × PendingExchange)
  listeners : List (String × List Nat)
deriving DecidableEq, Repr

/-- The wire envelope `{id, topic, data, isReply}` posted over the bound
MessagePort. -/
structure Envelope where
  id : String
  topic : String
  data : JsVal
  isReply : Bool
deriving DecidableEq, Repr

/-- `WindowMessenger.send(topic, data)` (lines 410-428).  The source draws
`id` from `crypto.getRandomValues`; the embedding takes the generated id as
a parameter.  Returns the updated instance state and the posted envelope;
the returned promise is pending (its resolution is a later
`onChannelMessageReceived_` step). -/
def send (s : MessengerState) (id topic : String) (data : JsVal) :
    MessengerState × Envelope :=
  (⟨aset s.messages id ⟨data, topic⟩, s.listeners⟩, ⟨id, topic, data, false⟩)

/-- `WindowMessenger.sendReply_(id, topic, data)` (lines 378-399): posts
`{id, topic, data, isReply: true}` and stores a fresh pending exchange under
the same id. -/
def sendReply_ (s : MessengerState) (id topic : String) (data : JsVal) :
    MessengerState × Envelope :=
  (⟨aset s.messages id ⟨data, topic⟩, s.listeners⟩, ⟨id, topic, data, true⟩)

/-- Observable outcome of one `onChannelMessageReceived_` step:
either a pending exchange was resolved (with the reply data and the
`sendReply_.bind(this, id, topic)` capability handed to the resolver),
or the message was dispatched to the topic's listeners (each receiving the
data and the bound reply capability), or it was dropped because no listener
is registered for the topic. -/
inductive RecvResult
  | resolvedReply (data : JsVal) (replyId : String) (replyTopic : String)
  | deliveredToListeners (callbacks : List Nat) (data : JsVal)
      (replyId : String) (replyTopic : String)
  | droppedNoListeners
deriving DecidableEq, Repr

/-- `WindowMessenger.onChannelMessageReceived_(event)` (lines 300-331).
If `this.messages[message.id]` exists and `message.isReply` is true, the
exchange is deleted and its resolver called with
`[message.data, sendReply_.bind(this, message.id, existingMessage.topic)]`.
Otherwise the message is dispatched to `this.listeners[message.topic]`
(dropped when that entry is absent), each listener receiving
`(message.data, sendReply_.bind(this, message.id, message.topic))`. -/
def onChannelMessageReceived_ (s : MessengerState) (env : Envelope) :
    MessengerState × RecvResult :=
  match alookup s.messages env.id, env.isReply with
  | some existing, true =>
      (⟨aremove s.messages env.id, s.listeners⟩,
        .resolvedReply env.data env.id existing.topic)
  | _, _ =>
      match alookup s.listeners env.topic with
      | none => (s, .droppedNoListeners)
      | some cbs => (s, .deliveredToListeners cbs env.data env.id env.topic)

/-! ## WindowMessenger: the listening-phase connection handler -/

/-- `WindowMessenger.Topics.CONNECT_HANDSHAKE` (line 285). -/
def connectHandshakeTopic : String := "topic-connect-handshake"

/-- `WindowMessenger.isAllowedOrigin_(origin, allowedOrigins)`
(lines 136-147): the message origin is allowed iff some entry of
`allowedOrigins` has the same normalized origin.  `parseUrl(x).origin`
(scheme+host+port normalization, from the AMP runtime, outside this
repository) is abstracted as the function `norm`. -/
def isAllowedOrigin_ (norm : String → String) (origin : String)
    (allowedOrigins : List String) : Bool :=
  allowedOrigins.any (fun allowedOrigin => norm allowedOrigin == norm origin)

/-- The instance state touched by the listening-phase handler:
`this.connected`, whether `this.messagePort` has been bound, whether the
window `message` observer is still registered, and whether the `listen()`
promise has been resolved. -/
structure ListenState where
  connected : Bool
  portBound : Bool
  observerRegistered : Bool
  promiseResolved : Bool
deriving DecidableEq, Repr

/-- An inbound window `message` event as the handler reads it: the reported
sender origin, whether `getData(event)` is truthy, and its `topic` field. -/
structure ConnEvent where
  origin : String
  hasMessage : Bool
  topic : String
deriving DecidableEq, Repr

/-- Whether the listening-phase handler discarded or accepted the event. -/
inductive ListenOutcome
  | discarded
  | accepted
deriving DecidableEq, Repr

/-- `WindowMessenger.onListenConnectionMessageReceived_` (lines 158-198):
discard when the origin is not allowed or the message is falsy or its topic
is not `CONNECT_HANDSHAKE`; otherwise deregister the window observer, bind
the transferred port, attach the channel handler and resolve the listen
promise (`this.connected` is set later, by the `.then` continuation of
`listen`). -/
def onListenConnectionMessageReceived_ (norm : String → String)
    (allowedOrigins : List String) (s : ListenState) (ev : ConnEvent) :
    ListenState × ListenOutcome :=
  if !(isAllowedOrigin_ norm ev.origin allowedOrigins) then
    (s, .discarded)
  else if !ev.hasMessage || ev.topic != connectHandshakeTopic then
    (s, .discarded)
  else
    (⟨s.connected, true, false, true⟩, .accepted)

/-! ## WindowMessenger: the listen() guard and observer registration -/

/-- The `allowedOrigins` argument as `listen` inspects it:
`Array.isArray(allowedOrigins)` distinguishes arrays from everything else;
element values are never validated. -/
inductive JsArg
  | arr (elems : List JsVal)
  | nonArray (v : JsVal)
deriving DecidableEq, Repr

/-- The synchronous rejections `listen` can produce (lines 88-100). -/
inductive ListenReject
  | alreadyConnected
  | alreadyListening
  | badAllowedOrigins
deriving DecidableEq, Repr

/-- Instance state relevant to the `listen` guard: the `connected` and
`listening` flags and how many window `message` observers the instance has
registered. -/
structure InstState where
  connected : Bool
  listening : Bool
  observerCount : Nat
deriving DecidableEq, Repr

/-- `WindowMessenger.listen(allowedOrigins)` (lines 86-118), up to its first
suspension: reject when `this.connected`, when `this.listening`, or when
`allowedOrigins` is not an array; otherwise bind the connection handler and
register it with `window.addEventListener`.  Note the source never assigns
`this.listening = true` (nor `this.connected` until the handshake), so the
flags are returned unchanged.  A `none` outcome means the promise is left
pending. -/
def listenCall (s : InstState) (arg : JsArg) :
    InstState × Option ListenReject :=
  if s.connected then (s, some .alreadyConnected)
  else if s.listening then (s, some .alreadyListening)
  else
    match arg with
    | .nonArray _ => (s, some .badAllowedOrigins)
    | .arr _ => (⟨s.connected, s.listening, s.observerCount + 1⟩, none)

/-! ## WindowMessenger: connect() -/

/-- Instance state touched by `connect` (lines 211-248): the guard flags and
the mutations the body performs (`this.channel = new MessageChannel()`,
`this.messagePort = this.channel.port1`, attaching the transient connection
handler, `this.messagePort.start()`). -/
structure ConnectState where
  connected : Bool
  connecting : Bool
  channelCreated : Bool
  portAssigned : Bool
  connectHandlerAttached : Bool
  portStarted : Bool
deriving DecidableEq, Repr

/-- How the promise returned by `connect` settles synchronously:
`pendingHandshake` means no synchronous settlement (the handshake reply
resolves it later). -/
inductive ConnectOutcome
  | rejectedMissingWindow
  | rejectedMissingOrigin
  | rejectedAlreadyConnected
  | rejectedAlreadyConnecting
  | pendingHandshake
deriving DecidableEq, Repr

/-- `WindowMessenger.connect(remoteWindowContext, expectedRemoteOrigin)`
(lines 211-248).  The two missing-argument checks call `reject` WITHOUT
`return`, so execution continues; the `connected`/`connecting` checks do
return.  A promise keeps its first settlement, so a recorded missing-argument
rejection wins over anything later (including the `TypeError` thrown by
`remoteWindowContext.postMessage` when the window is absent, which happens
only after the channel/port mutations). -/
def connectCall (s : ConnectState) (hasWindow hasOrigin : Bool) :
    ConnectState × ConnectOutcome :=
  let firstReject : Option ConnectOutcome :=
    if !hasWindow then some .rejectedMissingWindow
    else if !hasOrigin then some .rejectedMissingOrigin
    else none
  if s.connected then (s, firstReject.getD .rejectedAlreadyConnected)
  else if s.connecting then (s, firstReject.getD .rejectedAlreadyConnecting)
  else
    (⟨s.connected, s.connecting, true, true, true, true⟩,
      firstReject.getD .pendingHandshake)

/-! ## AmpWebPushHelperFrame: reply wrapper and registration handler -/

/-- The reply payload `{success, error, result}` built by
`replyToFrameWithPayload` (helper-frame.js lines 39-49). -/
structure ReplyWrapper where
  success : Bool
  error : JsVal
  result : JsVal
deriving DecidableEq, Repr

/-- `AmpWebPushHelperFrame.replyToFrameWithPayload` minus the transport
call: `{success: wasSuccessful, error: wasSuccessful ? undefined :
errorPayload, result: wasSuccessful ? successPayload : undefined}`. -/
def replyToFrameWithPayload (wasSuccessful : Bool)
    (errorPayload successPayload : JsVal) : ReplyWrapper :=
  ⟨wasSuccessful,
    if wasSuccessful then .undef else errorPayload,
    if wasSuccessful then successPayload else .undef⟩

/-- The fields of the inbound message the registration handler inspects:
truthiness of `message.workerUrl` and `message.registrationOptions`. -/
structure RegistrationMessage where
  workerUrlPresent : Bool
  registrationOptionsPresent : Bool
deriving DecidableEq, Repr

/-- The outcome of `navigator.serviceWorker.register(...)`: fulfilled, or
rejected with an error whose message the catch handler extracts
(`error ? (error.message || error.toString()) : null`; `none` models a
falsy rejection value). -/
inductive RegistrationOutcome
  | registered
  | failedWith (err : Option String)
deriving DecidableEq, Repr

/-- `AmpWebPushHelperFrame.onAmpPageMessageReceived_ServiceWorkerRegistration`
(lines 90-108): throws when the message or either required field is absent;
otherwise registers and replies through `replyToFrameWithPayload` with
`wasSuccessful = true` on BOTH the fulfilled and the rejected path, passing
the failure message (or null) as the success payload.  `message = none`
models a falsy message. -/
def onAmpPageMessageReceived_ServiceWorkerRegistration
    (message : Option RegistrationMessage) (outcome : RegistrationOutcome) :
    Except String ReplyWrapper :=
  match message with
  | none =>
      .error "Expected arguments workerUrl and registrationOptions in message"
  | some m =>
      if !m.workerUrlPresent || !m.registrationOptionsPresent then
        .error "Expected arguments workerUrl and registrationOptions in message"
      else
        match outcome with
        | .registered => .ok (replyToFrameWithPayload true .null .null)
        | .failedWith none => .ok (replyToFrameWithPayload true .null .null)
        | .failedWith (some msg) =>
            .ok (replyToFrameWithPayload true .null (.str msg))

/-! ## WorkerMessenger: waitUntilWorkerControlsPage -/

/-- A service worker lifecycle state (`ServiceWorker.state`). -/
inductive WkState
  | installing
  | waiting
  | activating
  | activated
  | redundant
deriving DecidableEq, Repr

/-- A controller object: an identity (distinct JS objects) plus its current
lifecycle state. -/
structure Controller where
  cid : Nat
  cstate : WkState
deriving DecidableEq, Repr

/-- `WorkerMessenger.isWorkerControllingPage_()` (lines 198-202):
`navigator.serviceWorker.controller` is non-null and its state is
`"activated"`.  (`navigator.serviceWorker` itself is modelled as always
present.) -/
def isWorkerControllingPage_ (controller : Option Controller) : Bool :=
  match controller with
  | some c => c.cstate == .activated
  | none => false

/-- The state of one `waitUntilWorkerControlsPage()` promise together with
the browser facts it observes: the current controller, whether the promise
has been resolved, whether the `controllerchange` listener was attached, and
the identities of the controller objects carrying a `statechange` listener
attached by this wait. -/
structure WaitState where
  controller : Option Controller
  resolved : Bool
  outerAttached : Bool
  stListeners : List Nat
deriving DecidableEq, Repr

/-- `WorkerMessenger.waitUntilWorkerControlsPage()` (lines 208-230), the
synchronous part: resolve at once when already controlled, otherwise attach
the `controllerchange` listener. -/
def waitUntilWorkerControlsPageInit (controller : Option Controller) :
    WaitState :=
  if isWorkerControllingPage_ controller then ⟨controller, true, false, []⟩
  else ⟨controller, false, true, []⟩

/-- An environment event: the page's controller is replaced (firing
`controllerchange` on `navigator.serviceWorker`), or the worker object with
identity `cid` changes lifecycle state (firing `statechange` on that
object). -/
inductive SWEvent
  | ctrlChange (c : Controller)
  | stChange (cid : Nat) (st : WkState)
deriving DecidableEq, Repr

/-- One event step of `waitUntilWorkerControlsPage`'s handlers.
On `controllerchange`: when the listener is attached, re-check
`isWorkerControllingPage_` and resolve, or else attach a `statechange`
listener to the now-current controller.  On a `statechange` of worker
`cid`: the current controller's state is updated when it is that object;
when a `statechange` listener was attached to object `cid`, its handler
re-checks `isWorkerControllingPage_` against the CURRENT controller and
resolves when activated.  Resolution is a monotone flag (resolving a
settled promise is a no-op). -/
def waitStep (s : WaitState) (e : SWEvent) : WaitState :=
  match e with
  | .ctrlChange c =>
      let s1 : WaitState := ⟨some c, s.resolved, s.outerAttached, s.stListeners⟩
      if s1.outerAttached then
        if isWorkerControllingPage_ s1.controller then
          ⟨s1.controller, true, s1.outerAttached, s1.stListeners⟩
        else
          ⟨s1.controller, s1.resolved, s1.outerAttached, c.cid :: s1.stListeners⟩
      else s1
  | .stChange cid st =>
      let s1 : WaitState :=
        match s.controller with
        | some c =>
            if c.cid = cid then ⟨some ⟨cid, st⟩, s.resolved, s.outerAttached, s.stListeners⟩
            else s
        | none => s
      if s1.stListeners.contains cid then
        if isWorkerControllingPage_ s1.controller then
          ⟨s1.controller, true, s1.outerAttached, s1.stListeners⟩
        else s1
      else s1

/-- A whole run: the synchronous part of `waitUntilWorkerControlsPage`
followed by a sequence of environment events. -/
def waitRun (controller : Option Controller) (events : List SWEvent) :
    WaitState :=
  events.foldl waitStep (waitUntilWorkerControlsPageInit controller)

/-! ## WorkerMessengerReplyBuffer and message dispatch -/

/-- One listener record `{callback, onceListenerOnly}`
(worker-messenger.js lines 27-30); `rid` is the record's JS object
identity, which also identifies the callback. -/
structure ListenerRecord where
  rid : Nat
  once : Bool
deriving DecidableEq, Repr

/-- `this.replies`: maps a command to an array of records, to `null` (after
`deleteListenerRecords`), or has no entry at all.  `some none` embeds the
`null` entry; an absent key embeds `undefined`. -/
abbrev ReplyBuffer := List (String × Option (List ListenerRecord))

/-- `WorkerMessengerReplyBuffer.findListenersForMessage(command)` (lines
39-41): `this.replies[command] || []` — `null` and `undefined` both give the
empty array. -/
def findListenersForMessage (b : ReplyBuffer) (command : String) :
    List ListenerRecord :=
  match alookup b command with
  | some (some l) => l
  | _ => []

/-- `WorkerMessengerReplyBuffer.addListener(command, callback, once)`
(lines 26-37): push onto the existing array when `findListenersForMessage`
is non-empty, otherwise install a fresh one-element array. -/
def addListener (b : ReplyBuffer) (command : String) (rid : Nat)
    (once : Bool) : ReplyBuffer :=
  if 0 < (findListenersForMessage b command).length then
    aset b command (some (findListenersForMessage b command ++ [⟨rid, once⟩]))
  else
    aset b command (some [⟨rid, once⟩])

/-- `WorkerMessengerReplyBuffer.deleteListenerRecords(command)` (lines
43-45): sets `this.replies[command] = null`. -/
def deleteListenerRecords (b : ReplyBuffer) (command : String) : ReplyBuffer :=
  aset b command none

/-- `WorkerMessengerReplyBuffer.deleteListenerRecord(command, targetRecord)`
(lines 47-58): reads `this.replies[command]` and iterates it backwards,
splicing out every record identical to the target.  When the entry is
`null` or absent, reading `.length` throws a TypeError, embedded as
`none`. -/
def deleteListenerRecord (b : ReplyBuffer) (command : String) (rid : Nat) :
    Option ReplyBuffer :=
  match alookup b command with
  | some (some l) =>
      some (aset b command (some (l.filter (fun r => r.rid != rid))))
  | _ => none

/-- The removal loop of `onPageMessageReceivedFromServiceWorker_`: calls
`deleteListenerRecord` for each listed identity in order (any call throwing
aborts, embedded as `none`). -/
def deleteMany : ReplyBuffer → String → List Nat → Option ReplyBuffer
  | b, _, [] => some b
  | b, command, rid :: rest =>
      match deleteListenerRecord b command rid with
      | some b1 => deleteMany b1 command rest
      | none => none

/-- `WorkerMessenger.onPageMessageReceivedFromServiceWorker_(event)`
(lines 136-157): collect the records for `data.command`; every
`onceListenerOnly` record is removed (backwards over the collected
sublist, hence `reverse`) BEFORE any callback runs; then every collected
record's callback is invoked in registration order with `data.payload`.
Returns the buffer in effect when the callbacks run and the invoked
callback identities; `none` embeds a thrown TypeError. -/
def onPageMessageReceivedFromServiceWorker_ (b : ReplyBuffer)
    (command : String) : Option (ReplyBuffer × List Nat) :=
  let records := findListenersForMessage b command
  let toRemove := records.filter (fun r => r.once)
  match deleteMany b command ((toRemove.reverse).map (fun r => r.rid)) with
  | some b1 => some (b1, records.map (fun r => r.rid))
  | none => none

/-! ## Association-list lemmas -/

theorem alookup_aset_self {α : Type} (b : List (String × α)) (k : String)
    (v : α) : alookup (aset b k v) k = some v := by
  induction b with
  | nil => simp [aset, alookup]
  | cons hd tl ih =>
      obtain ⟨k0, v0⟩ := hd
      by_cases h : k0 = k <;> simp [aset, alookup, h, ih]

theorem alookup_aset_ne {α : Type} (b : List (String × α)) (k k2 : String)
    (v : α) (h : k2 ≠ k) : alookup (aset b k v) k2 = alookup b k2 := by
  induction b with
  | nil => simp [aset, alookup, Ne.symm h]
  | cons hd tl ih =>
      obtain ⟨k0, v0⟩ := hd
      by_cases hk : k0 = k
      · subst hk
        simp [aset, alookup, Ne.symm h]
      · simp [aset, alookup, hk, ih]

theorem alookup_aremove_self {α : Type} (b : List (String × α))
    (k : String) : alookup (aremove b k) k = none := by
  induction b with
  | nil => simp [aremove, alookup]
  | cons hd tl ih =>
      obtain ⟨k0, v0⟩ := hd
      by_cases h : k0 = k <;> simp [aremove, alookup, h, ih]

/-- A non-reply envelope is always dispatched to the topic's listeners,
whatever the pending-exchange map holds, and leaves the state unchanged. -/
theorem recvNotReplyDelivered (s : MessengerState) (env : Envelope)
    (h : env.isReply = false) (cbs : List Nat)
    (hl : alookup s.listeners env.topic = some cbs) :
    onChannelMessageReceived_ s env
      = (s, .deliveredToListeners cbs env.data env.id env.topic) := by
  cases hx : alookup s.messages env.id <;>
    simp [onChannelMessageReceived_, hx, h, hl]

/-- A reply envelope whose id matches a pending exchange resolves it:
the exchange is deleted and the resolver called with the reply data and the
capability `(env.id, exchange.topic)`. -/
theorem recvReplyResolved (s : MessengerState) (env : Envelope)
    (ex : PendingExchange) (hx : alookup s.messages env.id = some ex)
    (h : env.isReply = true) :
    onChannelMessageReceived_ s env
      = (⟨aremove s.messages env.id, s.listeners⟩,
          .resolvedReply env.data env.id ex.topic) := by
  simp [onChannelMessageReceived_, hx, h]

/-- Claim C1: round-trip law for the window messenger.  Side A sends
`(topic, d)`; the envelope dispatches on side B to the listeners registered
for the topic, each handed the reply capability `(id, topic)`.  B answering
through that capability (`sendReply_`) resolves A's pending exchange with
`d2` as the first tuple element, handing A the same capability; A chaining
it with `d3` resolves the exchange B's reply created, and B chaining again
with `d4` resolves A's — three reply hops, each resolving exactly the
expected side with the expected data. -/
theorem claim1_roundTrip
    (A B : MessengerState) (id t : String) (d d2 d3 d4 : JsVal)
    (cbs : List Nat) (hl : alookup B.listeners t = some cbs)
    (A1 : MessengerState) (e1 : Envelope) (h1 : send A id t d = (A1, e1))
    (B1 : MessengerState) (r1 : RecvResult)
    (h2 : onChannelMessageReceived_ B e1 = (B1, r1))
    (B2 : MessengerState) (e2 : Envelope)
    (h3 : sendReply_ B1 id t d2 = (B2, e2))
    (A2 : MessengerState) (r2 : RecvResult)
    (h4 : onChannelMessageReceived_ A1 e2 = (A2, r2))
    (A3 : MessengerState) (e3 : Envelope)
    (h5 : sendReply_ A2 id t d3 = (A3, e3))
    (B3 : MessengerState) (r3 : RecvResult)
    (h6 : onChannelMessageReceived_ B2 e3 = (B3, r3))
    (B4 : MessengerState) (e4 : Envelope)
    (h7 : sendReply_ B3 id t d4 = (B4, e4))
    (A4 : MessengerState) (r4 : RecvResult)
    (h8 : onChannelMessageReceived_ A3 e4 = (A4, r4)) :
    r1 = RecvResult.deliveredToListeners cbs d id t
    ∧ r2 = RecvResult.resolvedReply d2 id t
    ∧ r3 = RecvResult.resolvedReply d3 id t
    ∧ r4 = RecvResult.resolvedReply d4 id t := by
  simp only [send] at h1
  injection h1 with hA1 he1
  subst hA1; subst he1
  rw [recvNotReplyDelivered B _ rfl cbs hl] at h2
  injection h2 with hB1 hr1
  subst hB1
  simp only [sendReply_] at h3
  injection h3 with hB2 he2
  subst hB2; subst he2
  rw [recvReplyResolved _ _ ⟨d, t⟩ (alookup_aset_self ..) rfl] at h4
  injection h4 with hA2 hr2
  subst hA2
  simp only [sendReply_] at h5
  injection h5 with hA3 he3
  subst hA3; subst he3
  rw [recvReplyResolved _ _ ⟨d2, t⟩ (alookup_aset_self ..) rfl] at h6
  injection h6 with hB3 hr3
  subst hB3
  simp only [sendReply_] at h7
  injection h7 with hB4 he4
  subst hB4; subst he4
  rw [recvReplyResolved _ _ ⟨d3, t⟩ (alookup_aset_self ..) rfl] at h8
  injection h8 with hA4 hr4
  exact ⟨hr1.symm, hr2.symm, hr3.symm, hr4.symm⟩

/-- Claim C1 witness: the round trip run on concrete states — A starts
empty, B has the single listener `0` registered on topic `t`; three reply
hops carry `r`, `u`, `v`. -/
theorem claim1_roundTrip_witness :
    (onChannelMessageReceived_ ⟨[], [("t", [0])]⟩ ⟨"i", "t", .str "q", false⟩).2
      = RecvResult.deliveredToListeners [0] (.str "q") "i" "t"
    ∧ (onChannelMessageReceived_ ⟨[("i", ⟨.str "q", "t"⟩)], []⟩
        ⟨"i", "t", .str "r", true⟩).2
      = RecvResult.resolvedReply (.str "r") "i" "t"
    ∧ (onChannelMessageReceived_ ⟨[("i", ⟨.str "r", "t"⟩)], [("t", [0])]⟩
        ⟨"i", "t", .str "u", true⟩).2
      = RecvResult.resolvedReply (.str "u") "i" "t"
    ∧ (onChannelMessageReceived_ ⟨[("i", ⟨.str "u", "t"⟩)], []⟩
        ⟨"i", "t", .str "v", true⟩).2
      = RecvResult.resolvedReply (.str "v") "i" "t" := by
  have h := claim1_roundTrip ⟨[], []⟩ ⟨[], [("t", [0])]⟩ "i" "t"
    (.str "q") (.str "r") (.str "u") (.str "v") [0] rfl
    _ _ rfl _ _ rfl _ _ rfl _ _ rfl _ _ rfl _ _ rfl _ _ rfl _ _ rfl
  exact ⟨h.1, h.2.1, h.2.2.1, h.2.2.2⟩

/-- Claim C2 counterexample: the claim asserts a second reply envelope with
an already-consumed id causes "no listener invocation"; but the source's
`onChannelMessageReceived_` treats an unmatched reply as a fresh message.
On a messenger with listener `0` registered on topic `t`, after
`send("i" fresh id, "t", null)` and one consumed reply, delivering the SAME
reply envelope again invokes listener `0`. -/
theorem claim2_counterexample :
    (onChannelMessageReceived_
      (onChannelMessageReceived_
        (send ⟨[], [("t", [0])]⟩ "i" "t" .null).1
        ⟨"i", "t", .str "x", true⟩).1
      ⟨"i", "t", .str "x", true⟩).2
    = RecvResult.deliveredToListeners [0] (.str "x") "i" "t" := by decide

/-- Claim C2 (amended): after `send(topic, d)` on any state, a
correctly-correlated inbound reply `{id, isReply: true, data: d2}` resolves
the send's pending exchange with `d2` exactly once and deletes the exchange
from the messages map; a SECOND reply envelope with the same id no longer
matches any pending exchange and is instead dispatched as a fresh message:
dropped when no listener is registered on its topic, and delivered to the
registered listeners otherwise (it never resolves anything again). -/
theorem claim2_amended (s : MessengerState) (id t t2 : String)
    (d d2 : JsVal) :
    (onChannelMessageReceived_ (send s id t d).1 ⟨id, t2, d2, true⟩).2
      = RecvResult.resolvedReply d2 id t
    ∧ alookup (onChannelMessageReceived_ (send s id t d).1
        ⟨id, t2, d2, true⟩).1.messages id = none
    ∧ (onChannelMessageReceived_
        (onChannelMessageReceived_ (send s id t d).1 ⟨id, t2, d2, true⟩).1
        ⟨id, t2, d2, true⟩).2
      = (match alookup s.listeners t2 with
         | none => RecvResult.droppedNoListeners
         | some cbs => RecvResult.deliveredToListeners cbs d2 id t2) := by
  have hx : alookup (send s id t d).1.messages id = some ⟨d, t⟩ :=
    alookup_aset_self ..
  rw [recvReplyResolved _ _ ⟨d, t⟩ hx rfl]
  refine ⟨rfl, alookup_aremove_self .., ?_⟩
  have hnone :
      alookup (aremove (aset s.messages id ⟨d, t⟩) id) id = none :=
    alookup_aremove_self ..
  cases hls : alookup s.listeners t2 <;>
    simp [onChannelMessageReceived_, hnone, send, hls]

/-- Claim C3: during the listening phase, an inbound connection message
whose reported origin does not normalize to an entry of `allowedOrigins`,
or whose topic is not `CONNECT_HANDSHAKE`, is silently discarded: the
instance state is returned unchanged (still not connected, no port bound,
the observer still registered), the listen promise is not settled, and the
handler (a total function here) neither throws nor rejects. -/
theorem claim3_listeningPhaseDiscard (norm : String → String)
    (allowedOrigins : List String) (s : ListenState) (ev : ConnEvent)
    (h : isAllowedOrigin_ norm ev.origin allowedOrigins = false
        ∨ ev.topic ≠ connectHandshakeTopic) :
    onListenConnectionMessageReceived_ norm allowedOrigins s ev
      = (s, .discarded) := by
  rcases h with h | h
  · simp [onListenConnectionMessageReceived_, h]
  · by_cases ha : isAllowedOrigin_ norm ev.origin allowedOrigins = true <;>
      simp [onListenConnectionMessageReceived_, ha, h]

/-- Claim C3 witness: with allowed origins `a.example` and `b.example`
(identity normalization), a handshake-topic message from a disallowed
origin and a wrong-topic message from an allowed origin are both
discarded with no state change. -/
theorem claim3_witness :
    onListenConnectionMessageReceived_ (fun x => x)
      ["https://a.example", "https://b.example"]
      ⟨false, false, true, false⟩
      ⟨"https://evil.example", true, connectHandshakeTopic⟩
      = (⟨false, false, true, false⟩, .discarded)
    ∧ onListenConnectionMessageReceived_ (fun x => x)
      ["https://a.example", "https://b.example"]
      ⟨false, false, true, false⟩
      ⟨"https://a.example", true, "topic-other"⟩
      = (⟨false, false, true, false⟩, .discarded) :=
  ⟨claim3_listeningPhaseDiscard _ _ _ _ (Or.inl (by decide)),
   claim3_listeningPhaseDiscard _ _ _ _ (Or.inr (by decide))⟩

/-- Claim C4, code evaluation at the failing input: the source never
assigns `this.listening = true`, so the "Already listening" guard is dead.
A first `listen` on a fresh instance is accepted and registers an observer;
a SECOND `listen` on the resulting state is accepted again (outcome `none`,
not `some .alreadyListening`) and registers a second observer.  The final
conjunct isolates the root cause: `listenCall` never changes the
`listening` (or `connected`) flag. -/
theorem claim4_secondListenAcceptedBug :
    listenCall ⟨false, false, 0⟩ (JsArg.arr [.str "https://site.example"])
      = (⟨false, false, 1⟩, none)
    ∧ listenCall ⟨false, false, 1⟩ (JsArg.arr [.str "https://site.example"])
      = (⟨false, false, 2⟩, none)
    ∧ ∀ (s : InstState) (arg : JsArg),
        (listenCall s arg).1.listening = s.listening
        ∧ (listenCall s arg).1.connected = s.connected := by
  refine ⟨by decide, by decide, ?_⟩
  intro s arg
  obtain ⟨c, l, n⟩ := s
  cases c <;> cases l <;> cases arg <;> simp [listenCall]

/-- Claim C5 counterexample: the claim says the empty array and arrays with
non-string elements are rejected with no observer registered; the source
only checks `Array.isArray`, so both pass validation, register the window
observer, and leave the promise pending. -/
theorem claim5_counterexample :
    listenCall ⟨false, false, 0⟩ (JsArg.arr []) = (⟨false, false, 1⟩, none)
    ∧ listenCall ⟨false, false, 0⟩ (JsArg.arr [.num 42])
      = (⟨false, false, 1⟩, none) := by decide

/-- Claim C5 (amended): `listen` rejects synchronously exactly when the
instance is already connected, its `listening` flag is set, or the argument
is not an array — rejection leaves the state untouched; ANY array
(including the empty array and arrays with non-string elements) passes
validation, registers one more window observer, and leaves the flags
unchanged with the promise pending. -/
theorem claim5_amended (s : InstState) (arg : JsArg) :
    ((listenCall s arg).2 = none
      ↔ s.connected = false ∧ s.listening = false ∧ ∃ l, arg = JsArg.arr l)
    ∧ ((listenCall s arg).2 ≠ none → (listenCall s arg).1 = s)
    ∧ ((listenCall s arg).2 = none
        → (listenCall s arg).1
          = ⟨s.connected, s.listening, s.observerCount + 1⟩) := by
  obtain ⟨c, l, n⟩ := s
  cases c <;> cases l <;> cases arg <;> simp [listenCall]

/-- Claim C5 witness: the empty array is accepted on an idle instance, and
a non-array on a connected instance is rejected with no state change. -/
theorem claim5_amended_witness :
    (listenCall ⟨false, false, 5⟩ (JsArg.arr [])).2 = none
    ∧ (listenCall ⟨true, false, 5⟩ (JsArg.nonArray .null)).1
      = ⟨true, false, 5⟩ :=
  ⟨(claim5_amended ⟨false, false, 5⟩ (JsArg.arr [])).1.mpr
      ⟨rfl, rfl, [], rfl⟩,
   (claim5_amended ⟨true, false, 5⟩ (JsArg.nonArray .null)).2.1 (by decide)⟩

/-- Claim C6 counterexample: the claim says the registration handler's
success envelope carries `error = null`; on a concrete failed registration
the envelope is `{success: true, error: undefined, result: "registration
failed"}` — the error field is `undefined`, which is distinct from
`null`. -/
theorem claim6_counterexample :
    onAmpPageMessageReceived_ServiceWorkerRegistration
      (some ⟨true, true⟩) (.failedWith (some "registration failed"))
      = .ok ⟨true, .undef, .str "registration failed"⟩
    ∧ JsVal.undef ≠ JsVal.null := ⟨rfl, by decide⟩

/-- Claim C6 (amended): the registration handler throws when the message or
`message.workerUrl` or `message.registrationOptions` is absent; otherwise it
always replies with a success envelope — `success = true` and
`error = undefined` (not `null`) — regardless of the registration outcome,
a failed registration being reported as its error string (or `null` for a
falsy error) in the `result` field of that successful envelope. -/
theorem claim6_amended :
    (∀ outcome, onAmpPageMessageReceived_ServiceWorkerRegistration
        none outcome
      = .error "Expected arguments workerUrl and registrationOptions in message")
    ∧ (∀ (m : RegistrationMessage) outcome,
        (m.workerUrlPresent = false ∨ m.registrationOptionsPresent = false)
        → onAmpPageMessageReceived_ServiceWorkerRegistration (some m) outcome
          = .error "Expected arguments workerUrl and registrationOptions in message")
    ∧ (∀ (m : RegistrationMessage) outcome,
        m.workerUrlPresent = true → m.registrationOptionsPresent = true
        → onAmpPageMessageReceived_ServiceWorkerRegistration (some m) outcome
          = .ok ⟨true, .undef,
              match outcome with
              | .registered => JsVal.null
              | .failedWith none => JsVal.null
              | .failedWith (some msg) => JsVal.str msg⟩) := by
  refine ⟨fun outcome => rfl, ?_, ?_⟩
  · intro m outcome h
    obtain ⟨w, r⟩ := m
    rcases h with h | h <;> subst h <;>
      simp [onAmpPageMessageReceived_ServiceWorkerRegistration]
  · intro m outcome hw hr
    obtain ⟨w, r⟩ := m
    subst hw; subst hr
    cases outcome with
    | registered => rfl
    | failedWith e => cases e <;> rfl

/-- Claim C6 witness: a message missing `workerUrl` throws; a complete
message with a fulfilled registration yields the success envelope with
`error = undefined` and `result = null`. -/
theorem claim6_amended_witness :
    onAmpPageMessageReceived_ServiceWorkerRegistration
      (some ⟨false, true⟩) .registered
      = .error "Expected arguments workerUrl and registrationOptions in message"
    ∧ onAmpPageMessageReceived_ServiceWorkerRegistration
      (some ⟨true, true⟩) .registered
      = .ok ⟨true, .undef, .null⟩ :=
  ⟨claim6_amended.2.1 ⟨false, true⟩ .registered (Or.inl rfl),
   claim6_amended.2.2 ⟨true, true⟩ .registered rfl rfl⟩

/-- Claim C10: `connect` is not atomic on usage errors.  The
already-connected and already-connecting guards return before any mutation
(state unchanged); but a missing window context or a missing expected
origin, while rejecting the returned promise with the corresponding error,
still creates and assigns a fresh MessageChannel, overwrites
`this.messagePort` with its port1, attaches the transient connection
handler to that port, and starts it. -/
theorem claim10_connectNonAtomic (s : ConnectState) (hw ho : Bool) :
    (s.connected = true → (connectCall s hw ho).1 = s)
    ∧ (s.connected = false → s.connecting = true
        → (connectCall s hw ho).1 = s)
    ∧ (s.connected = false → s.connecting = false → hw = false
        → connectCall s hw ho
          = (⟨false, false, true, true, true, true⟩,
              .rejectedMissingWindow))
    ∧ (s.connected = false → s.connecting = false → hw = true → ho = false
        → connectCall s hw ho
          = (⟨false, false, true, true, true, true⟩,
              .rejectedMissingOrigin)) := by
  obtain ⟨c, g, q1, q2, q3, q4⟩ := s
  cases c <;> cases g <;> cases hw <;> cases ho <;> simp [connectCall]

/-- Claim C10 witness: an already-connected instance is left untouched even
with missing arguments; on an idle instance, a missing window context and a
missing origin each reject while mutating the channel state. -/
theorem claim10_witness :
    (connectCall ⟨true, false, false, false, false, false⟩ false true).1
      = ⟨true, false, false, false, false, false⟩
    ∧ connectCall ⟨false, false, false, false, false, false⟩ false true
      = (⟨false, false, true, true, true, true⟩, .rejectedMissingWindow)
    ∧ connectCall ⟨false, false, false, false, false, false⟩ true false
      = (⟨false, false, true, true, true, true⟩, .rejectedMissingOrigin) :=
  ⟨(claim10_connectNonAtomic _ false true).1 rfl,
   (claim10_connectNonAtomic _ false true).2.2.1 rfl rfl rfl,
   (claim10_connectNonAtomic _ true false).2.2.2 rfl rfl rfl rfl⟩

/-- No event handler of the wait ever detaches the `controllerchange`
listener. -/
theorem waitStep_outerAttached (s : WaitState) (e : SWEvent) :
    (waitStep s e).outerAttached = s.outerAttached := by
  obtain ⟨ctl, res, outer, sls⟩ := s
  cases e <;> cases ctl <;> simp only [waitStep] <;>
    (repeat' split) <;> rfl

/-- Resolution is monotone: once the promise is resolved, every later
handler invocation leaves it resolved (resolving twice is a no-op). -/
theorem waitStep_resolvedMono (s : WaitState) (e : SWEvent)
    (h : s.resolved = true) : (waitStep s e).resolved = true := by
  obtain ⟨ctl, res, outer, sls⟩ := s
  cases h
  cases e <;> cases ctl <;> simp only [waitStep] <;>
    (repeat' split) <;> rfl

theorem waitSteps_outerAttached (es : List SWEvent) :
    ∀ (s : WaitState), (es.foldl waitStep s).outerAttached
      = s.outerAttached := by
  induction es with
  | nil => intro s; rfl
  | cons e rest ih =>
      intro s
      simp only [List.foldl_cons]
      rw [ih, waitStep_outerAttached]

theorem waitSteps_resolvedMono (es : List SWEvent) :
    ∀ (s : WaitState), s.resolved = true
      → (es.foldl waitStep s).resolved = true := by
  induction es with
  | nil => intro s h; exact h
  | cons e rest ih =>
      intro s h
      simp only [List.foldl_cons]
      exact ih _ (waitStep_resolvedMono s e h)

/-- With no `statechange` listener attached, a `statechange` event changes
neither the resolution flag nor the (empty) listener list. -/
theorem waitStep_stChangeNoListener (s : WaitState) (cid : Nat)
    (st : WkState) (h : s.stListeners = []) :
    (waitStep s (.stChange cid st)).resolved = s.resolved
    ∧ (waitStep s (.stChange cid st)).stListeners = [] := by
  obtain ⟨ctl, res, outer, sls⟩ := s
  simp only at h
  subst h
  cases ctl <;> simp only [waitStep] <;> (repeat' split) <;>
    simp_all [List.contains]

theorem waitSteps_noCtrlChange (es : List SWEvent) :
    ∀ (s : WaitState), s.resolved = false → s.stListeners = []
      → (∀ e ∈ es, ∀ c, e ≠ SWEvent.ctrlChange c)
      → (es.foldl waitStep s).resolved = false := by
  induction es with
  | nil => intro s h1 _ _; exact h1
  | cons e rest ih =>
      intro s h1 h2 hno
      cases e with
      | ctrlChange c => exact absurd rfl (hno _ (by simp) c)
      | stChange cid st =>
          have hstep := waitStep_stChangeNoListener s cid st h2
          simp only [List.foldl_cons]
          refine ih _ ?_ hstep.2 ?_
          · rw [hstep.1]; exact h1
          · intro e he c; exact hno e (by simp [he]) c

/-- If the promise is unresolved and the current controller is not
activated, an event that presents no activated state keeps it that way. -/
theorem waitStep_noActivation (s : WaitState) (e : SWEvent)
    (h1 : s.resolved = false)
    (h2 : isWorkerControllingPage_ s.controller = false)
    (hec : ∀ c, e = SWEvent.ctrlChange c → c.cstate ≠ WkState.activated)
    (hes : ∀ cid st, e = SWEvent.stChange cid st → st ≠ WkState.activated) :
    (waitStep s e).resolved = false
    ∧ isWorkerControllingPage_ (waitStep s e).controller = false := by
  obtain ⟨ctl, res, outer, sls⟩ := s
  cases h1
  cases e with
  | ctrlChange c =>
      have hc : (c.cstate == WkState.activated) = false := by
        simpa using hec c rfl
      cases ctl <;> simp_all [waitStep, isWorkerControllingPage_] <;>
        (repeat' split) <;> simp_all
  | stChange cid st =>
      have hst : (st == WkState.activated) = false := by
        simpa using hes cid st rfl
      cases ctl <;> simp_all [waitStep, isWorkerControllingPage_] <;>
        (repeat' split) <;> simp_all [isWorkerControllingPage_] <;>
        (rename_i heq; cases heq; simp_all)

theorem waitSteps_noActivation (es : List SWEvent) :
    ∀ (s : WaitState), s.resolved = false
      → isWorkerControllingPage_ s.controller = false
      → (∀ c, SWEvent.ctrlChange c ∈ es → c.cstate ≠ WkState.activated)
      → (∀ cid st, SWEvent.stChange cid st ∈ es → st ≠ WkState.activated)
      → (es.foldl waitStep s).resolved = false := by
  induction es with
  | nil => intro s h1 _ _ _; exact h1
  | cons e rest ih =>
      intro s h1 h2 hc hs
      have hstep := waitStep_noActivation s e h1 h2
        (fun c he => hc c (by simp [he]))
        (fun cid st he => hs cid st (by simp [he]))
      simp only [List.foldl_cons]
      exact ih _ hstep.1 hstep.2
        (fun c hmem => hc c (by simp [hmem]))
        (fun cid st hmem => hs cid st (by simp [hmem]))

/-- With the `controllerchange` listener attached, a controller change to
an already-activated controller resolves the wait at once. -/
theorem waitStep_ctrlActivated (s : WaitState) (n : Nat)
    (houter : s.outerAttached = true) :
    (waitStep s (.ctrlChange ⟨n, WkState.activated⟩)).resolved = true := by
  obtain ⟨ctl, res, outer, sls⟩ := s
  cases houter
  simp [waitStep, isWorkerControllingPage_]

/-- With the `controllerchange` listener attached, a controller change
followed by that controller's `statechange` to activated resolves the
wait. -/
theorem waitStep_ctrlThenActivated (s : WaitState) (n : Nat) (st : WkState)
    (houter : s.outerAttached = true) :
    (waitStep (waitStep s (.ctrlChange ⟨n, st⟩))
      (.stChange n WkState.activated)).resolved = true := by
  by_cases hst : st = WkState.activated
  · subst hst
    exact waitStep_resolvedMono _ _ (waitStep_ctrlActivated s n houter)
  · obtain ⟨ctl, res, outer, sls⟩ := s
    cases houter
    have hbeq : (st == WkState.activated) = false := by simpa using hst
    simp [waitStep, isWorkerControllingPage_, hbeq, List.contains]

/-- Claim C7: `waitUntilWorkerControlsPage()` returns a promise that
resolves at most once (resolution is monotone and re-resolution a no-op)
and never rejects (the embedding is a total function with no rejection
outcome, mirroring the source, which never calls `reject`); it resolves
immediately when a controller already exists in state `activated`;
otherwise it resolves only after a `controllerchange` notification — no
run without a `controllerchange` resolves it, however the initial
controller's state changes; a `controllerchange` not followed by an
activation never resolves it, and runs of arbitrary length may stay
pending forever; and it does resolve once a `controllerchange` is followed
by that controller's activation (or delivers an already-activated
controller). -/
theorem claim7_waitUntilWorkerControlsPage :
    (∀ (c0 : Option Controller), isWorkerControllingPage_ c0 = true
      → ∀ es, (waitRun c0 es).resolved = true)
    ∧ (∀ (s : WaitState) (e : SWEvent), s.resolved = true
        → (waitStep s e).resolved = true)
    ∧ (∀ (c0 : Option Controller) (es : List SWEvent),
        isWorkerControllingPage_ c0 = false
        → (∀ e ∈ es, ∀ c, e ≠ SWEvent.ctrlChange c)
        → (waitRun c0 es).resolved = false)
    ∧ (∀ (c0 : Option Controller) (es : List SWEvent),
        isWorkerControllingPage_ c0 = false
        → (∀ c, SWEvent.ctrlChange c ∈ es → c.cstate ≠ WkState.activated)
        → (∀ cid st, SWEvent.stChange cid st ∈ es
            → st ≠ WkState.activated)
        → (waitRun c0 es).resolved = false)
    ∧ (∀ (c0 : Option Controller) (es : List SWEvent) (n : Nat),
        isWorkerControllingPage_ c0 = false
        → (waitRun c0
            (es ++ [SWEvent.ctrlChange ⟨n, WkState.activated⟩])).resolved
          = true)
    ∧ (∀ (c0 : Option Controller) (es : List SWEvent) (n : Nat)
        (st : WkState),
        isWorkerControllingPage_ c0 = false
        → (waitRun c0 (es ++ [SWEvent.ctrlChange ⟨n, st⟩,
            SWEvent.stChange n WkState.activated])).resolved = true) := by
  refine ⟨?_, waitStep_resolvedMono, ?_, ?_, ?_, ?_⟩
  · intro c0 h es
    exact waitSteps_resolvedMono es _
      (by simp [waitUntilWorkerControlsPageInit, h])
  · intro c0 es h hno
    exact waitSteps_noCtrlChange es _
      (by simp [waitUntilWorkerControlsPageInit, h])
      (by simp [waitUntilWorkerControlsPageInit, h]) hno
  · intro c0 es h hc hs
    exact waitSteps_noActivation es _
      (by simp [waitUntilWorkerControlsPageInit, h])
      (by simp [waitUntilWorkerControlsPageInit, h]) hc hs
  · intro c0 es n h
    unfold waitRun
    rw [List.foldl_append]
    refine waitStep_ctrlActivated _ n ?_
    rw [waitSteps_outerAttached]
    simp [waitUntilWorkerControlsPageInit, h]
  · intro c0 es n st h
    unfold waitRun
    have hsplit : es ++ [SWEvent.ctrlChange ⟨n, st⟩,
        SWEvent.stChange n WkState.activated]
      = (es ++ [SWEvent.ctrlChange ⟨n, st⟩])
          ++ [SWEvent.stChange n WkState.activated] := by simp
    rw [hsplit, List.foldl_append, List.foldl_append]
    simp only [List.foldl_cons, List.foldl_nil]
    refine waitStep_ctrlThenActivated _ n st ?_
    rw [waitSteps_outerAttached]
    simp [waitUntilWorkerControlsPageInit, h]

/-- Claim C7 witness: an already-activated controller resolves with no
events; a lone `statechange` to activated (no controller change) does not
resolve; a controller change to a waiting controller does not resolve by
itself; and a controller change followed by that controller's activation
does resolve. -/
theorem claim7_witness :
    (waitRun (some ⟨0, WkState.activated⟩) []).resolved = true
    ∧ (waitRun (some ⟨0, WkState.installing⟩)
        [SWEvent.stChange 0 WkState.activated]).resolved = false
    ∧ (waitRun (some ⟨0, WkState.installing⟩)
        [SWEvent.ctrlChange ⟨1, WkState.waiting⟩]).resolved = false
    ∧ (waitRun (some ⟨0, WkState.installing⟩)
        [SWEvent.ctrlChange ⟨1, WkState.waiting⟩,
         SWEvent.stChange 1 WkState.activated]).resolved = true := by
  refine ⟨?_, ?_, ?_, ?_⟩
  · exact claim7_waitUntilWorkerControlsPage.1 _ (by decide) []
  · refine claim7_waitUntilWorkerControlsPage.2.2.1 _ _ (by decide) ?_
    intro e he c
    simp only [List.mem_singleton] at he
    subst he
    simp
  · refine claim7_waitUntilWorkerControlsPage.2.2.2.1 _ _ (by decide)
      ?_ ?_
    · intro c hc
      simp only [List.mem_singleton] at hc
      cases hc
      decide
    · intro cid st hs
      simp at hs
  · exact claim7_waitUntilWorkerControlsPage.2.2.2.2.2 _ [] 1
      WkState.waiting (by decide)

theorem contains_eq_decide_mem (ys : List Nat) (v : Nat) :
    ys.contains v = decide (v ∈ ys) := by
  by_cases h : v ∈ ys <;> simp [h, List.contains, List.elem_iff]

/-- Running the removal loop over a list of record identities succeeds on a
present listener array and filters out exactly those identities, leaving
every other command untouched. -/
theorem deleteMany_spec (rids : List Nat) :
    ∀ (b : ReplyBuffer) (command : String) (l : List ListenerRecord),
      alookup b command = some (some l)
      → ∃ b1, deleteMany b command rids = some b1
          ∧ alookup b1 command
            = some (some (l.filter (fun r => !(rids.contains r.rid))))
          ∧ ∀ k, k ≠ command → alookup b1 k = alookup b k := by
  induction rids with
  | nil =>
      intro b command l h
      have hfil : l.filter (fun r => !(([] : List Nat).contains r.rid)) = l :=
        List.filter_eq_self.mpr (fun a _ => by simp)
      exact ⟨b, rfl, by rw [hfil]; exact h, fun k _ => rfl⟩
  | cons rid rest ih =>
      intro b command l h
      have hdel : deleteListenerRecord b command rid
          = some (aset b command
              (some (l.filter (fun r => r.rid != rid)))) := by
        simp [deleteListenerRecord, h]
      obtain ⟨b1, hrun, hlk, hoth⟩ := ih
        (aset b command (some (l.filter (fun r => r.rid != rid)))) command
        (l.filter (fun r => r.rid != rid)) (alookup_aset_self ..)
      refine ⟨b1, ?_, ?_, ?_⟩
      · simp [deleteMany, hdel, hrun]
      · rw [hlk, List.filter_filter]
        have hpt : l.filter
              (fun a => !(rest.contains a.rid) && (a.rid != rid))
            = l.filter (fun r => !((rid :: rest).contains r.rid)) := by
          apply List.filter_congr
          intro x _
          by_cases h1 : x.rid = rid <;> by_cases h2 : x.rid ∈ rest <;>
            simp [contains_eq_decide_mem, h1, h2]
        rw [hpt]
      · intro k hk
        rw [hoth k hk, alookup_aset_ne _ _ _ _ hk]

/-- One dispatch step of the worker messenger on a command whose listener
array is `l` (record identities pairwise distinct): it does not throw, every
registered callback is invoked in registration order, and the buffer handed
to the callbacks retains exactly the non-`once` records; other commands are
untouched. -/
theorem dispatchSW_spec (b : ReplyBuffer) (command : String)
    (l : List ListenerRecord) (hlk : alookup b command = some (some l))
    (hnd : (l.map (fun r => r.rid)).Nodup) :
    ∃ b1, onPageMessageReceivedFromServiceWorker_ b command
        = some (b1, l.map (fun r => r.rid))
      ∧ alookup b1 command = some (some (l.filter (fun r => !r.once)))
      ∧ ∀ k, k ≠ command → alookup b1 k = alookup b k := by
  have hfind : findListenersForMessage b command = l := by
    simp [findListenersForMessage, hlk]
  obtain ⟨b1, hrun, hlk1, hoth⟩ := deleteMany_spec
    (((l.filter (fun r => r.once)).map (fun r => r.rid)).reverse)
    b command l hlk
  refine ⟨b1, ?_, ?_, hoth⟩
  · simp [onPageMessageReceivedFromServiceWorker_, hfind, hrun]
  · rw [hlk1]
    have hpt : l.filter (fun r =>
          !((((l.filter (fun r => r.once)).map
              (fun r => r.rid)).reverse).contains r.rid))
        = l.filter (fun r => !r.once) := by
      apply List.filter_congr
      intro x hx
      have hcnt : ((((l.filter (fun r => r.once)).map
          (fun r => r.rid)).reverse).contains x.rid) = x.once := by
        cases honce : x.once with
        | true =>
            have hx2 : x ∈ l.filter (fun r => r.once) :=
              List.mem_filter.mpr ⟨hx, honce⟩
            have hmem : x.rid ∈ ((l.filter (fun r => r.once)).map
                (fun r => r.rid)).reverse :=
              List.mem_reverse.mpr (List.mem_map.mpr ⟨x, hx2, rfl⟩)
            rw [contains_eq_decide_mem]
            exact decide_eq_true hmem
        | false =>
            have hnot : x.rid ∉ ((l.filter (fun r => r.once)).map
                (fun r => r.rid)).reverse := by
              rw [List.mem_reverse]
              intro hmem
              obtain ⟨y, hy, hyr⟩ := List.mem_map.mp hmem
              have hyl := List.mem_filter.mp hy
              have hxy : y = x :=
                List.inj_on_of_nodup_map hnd hyl.1 hx hyr
              rw [hxy] at hyl
              rw [honce] at hyl
              exact absurd hyl.2 (by simp)
            rw [contains_eq_decide_mem]
            exact decide_eq_false hnot
      rw [hcnt]
    rw [hpt]

/-- Claim C8: on the worker messenger, a `once` listener is invoked for the
first matching inbound message only, its record removed from the registry
before any callback of that dispatch runs (the buffer returned alongside
the call list — the one in effect when callbacks execute — no longer holds
it); a second message on the same topic does not re-invoke the `once`
listener but does invoke every still-registered persistent listener, in
order. -/
theorem claim8_onceListener (b : ReplyBuffer) (command : String)
    (l : List ListenerRecord) (r : ListenerRecord)
    (hlk : alookup b command = some (some l))
    (hnd : (l.map (fun x => x.rid)).Nodup)
    (hr : r ∈ l) (honce : r.once = true) :
    ∃ b1 b2,
      onPageMessageReceivedFromServiceWorker_ b command
        = some (b1, l.map (fun x => x.rid))
      ∧ alookup b1 command
        = some (some (l.filter (fun x => !x.once)))
      ∧ onPageMessageReceivedFromServiceWorker_ b1 command
        = some (b2, (l.filter (fun x => !x.once)).map (fun x => x.rid))
      ∧ r.rid ∈ l.map (fun x => x.rid)
      ∧ r.rid ∉ (l.filter (fun x => !x.once)).map (fun x => x.rid)
      ∧ ∀ p ∈ l, p.once = false
          → p.rid ∈ (l.filter (fun x => !x.once)).map (fun x => x.rid) := by
  obtain ⟨b1, hrun1, hlk1, _⟩ := dispatchSW_spec b command l hlk hnd
  have hnd2 : ((l.filter (fun x => !x.once)).map (fun x => x.rid)).Nodup :=
    List.Nodup.sublist
      (List.Sublist.map (fun x => x.rid) (List.filter_sublist l)) hnd
  obtain ⟨b2, hrun2, _, _⟩ :=
    dispatchSW_spec b1 command (l.filter (fun x => !x.once)) hlk1 hnd2
  refine ⟨b1, b2, hrun1, hlk1, hrun2, ?_, ?_, ?_⟩
  · exact List.mem_map.mpr ⟨r, hr, rfl⟩
  · intro hmem
    obtain ⟨y, hy, hyr⟩ := List.mem_map.mp hmem
    have hyl := List.mem_filter.mp hy
    have hxy : y = r := List.inj_on_of_nodup_map hnd hyl.1 hr hyr
    rw [hxy, honce] at hyl
    exact absurd hyl.2 (by simp)
  · intro p hp hponce
    exact List.mem_map.mpr
      ⟨p, List.mem_filter.mpr ⟨hp, by simp [hponce]⟩, rfl⟩

/-- Claim C8 witness: buffer built by `once("t", callback 0)` then
`on("t", callback 1)`; the first message invokes callbacks 0 and 1 and
removes the `once` record before invocation; the second invokes only
callback 1. -/
theorem claim8_onceListener_witness :
    ∃ b1 b2,
      onPageMessageReceivedFromServiceWorker_
        (addListener (addListener [] "t" 0 true) "t" 1 false) "t"
        = some (b1, [0, 1])
      ∧ alookup b1 "t" = some (some [⟨1, false⟩])
      ∧ onPageMessageReceivedFromServiceWorker_ b1 "t" = some (b2, [1])
      ∧ (0 : Nat) ∈ [0, 1]
      ∧ (0 : Nat) ∉ [1]
      ∧ ∀ p ∈ [ListenerRecord.mk 0 true, ListenerRecord.mk 1 false],
          p.once = false → p.rid ∈ [1] :=
  claim8_onceListener (addListener (addListener [] "t" 0 true) "t" 1 false)
    "t" [⟨0, true⟩, ⟨1, false⟩] ⟨0, true⟩
    (by decide) (by decide) (by decide) rfl

/-- Claim C9 counterexample: the claim says `deleteListenerRecord` neither
throws nor mutates when the topic has no registered listener list; but on
an empty registry, and on a registry whose topic entry was nulled by
`deleteListenerRecords` (`off`), reading `.length` of the missing array
throws a TypeError (embedded as `none`). -/
theorem claim9_counterexample :
    deleteListenerRecord ([] : ReplyBuffer) "t" 0 = none
    ∧ deleteListenerRecord
        (deleteListenerRecords (addListener [] "t" 7 false) "t") "t" 7
      = none := by decide

/-- Claim C9 (amended): on a command whose listener array exists,
`deleteListenerRecord` removes exactly the identity-matched record — a
no-op on the array when the record is absent, removal of exactly that one
record when present once — and leaves every other command untouched; but
when the command has no listener array (never registered, or nulled by
`deleteListenerRecords`) the call throws a TypeError instead of being a
no-op. -/
theorem claim9_removeListener :
    (∀ (b : ReplyBuffer) (command : String) (l : List ListenerRecord)
        (rid : Nat),
      alookup b command = some (some l)
      → rid ∉ l.map (fun x => x.rid)
      → ∃ b1, deleteListenerRecord b command rid = some b1
          ∧ alookup b1 command = some (some l)
          ∧ ∀ k, k ≠ command → alookup b1 k = alookup b k)
    ∧ (∀ (b : ReplyBuffer) (command : String)
        (l1 l2 : List ListenerRecord) (r : ListenerRecord),
      alookup b command = some (some (l1 ++ r :: l2))
      → r.rid ∉ (l1 ++ l2).map (fun x => x.rid)
      → ∃ b1, deleteListenerRecord b command r.rid = some b1
          ∧ alookup b1 command = some (some (l1 ++ l2))
          ∧ ∀ k, k ≠ command → alookup b1 k = alookup b k)
    ∧ (∀ (b : ReplyBuffer) (command : String) (rid : Nat),
      (alookup b command = none ∨ alookup b command = some none)
      → deleteListenerRecord b command rid = none) := by
  refine ⟨?_, ?_, ?_⟩
  · intro b command l rid hlk hmem
    have hfil : l.filter (fun x => x.rid != rid) = l := by
      apply List.filter_eq_self.mpr
      intro x hx
      have : x.rid ≠ rid := fun he =>
        hmem (List.mem_map.mpr ⟨x, hx, he⟩)
      simpa using this
    refine ⟨aset b command (some l), ?_, alookup_aset_self ..,
      fun k hk => alookup_aset_ne _ _ _ _ hk⟩
    simp [deleteListenerRecord, hlk, hfil]
  · intro b command l1 l2 r hlk hmem
    have hne : ∀ x ∈ l1 ++ l2, (x.rid != r.rid) = true := by
      intro x hx
      have : x.rid ≠ r.rid := fun he =>
        hmem (List.mem_map.mpr ⟨x, hx, he⟩)
      simpa using this
    have hfil : (l1 ++ r :: l2).filter (fun x => x.rid != r.rid)
        = l1 ++ l2 := by
      rw [List.filter_append, List.filter_cons]
      have hr : (r.rid != r.rid) = false := by simp
      rw [hr]
      have h1 : l1.filter (fun x => x.rid != r.rid) = l1 :=
        List.filter_eq_self.mpr
          (fun x hx => hne x (List.mem_append_left _ hx))
      have h2 : l2.filter (fun x => x.rid != r.rid) = l2 :=
        List.filter_eq_self.mpr
          (fun x hx => hne x (List.mem_append_right _ hx))
      rw [h1, h2]
      simp
    refine ⟨aset b command (some (l1 ++ l2)), ?_, alookup_aset_self ..,
      fun k hk => alookup_aset_ne _ _ _ _ hk⟩
    simp [deleteListenerRecord, hlk, hfil]
  · intro b command rid h
    rcases h with h | h <;> simp [deleteListenerRecord, h]

/-- Claim C9 witness: deleting an absent record from an existing array is a
no-op; deleting the one matching record removes exactly it; deleting on a
topic with no array throws. -/
theorem claim9_removeListener_witness :
    (∃ b1, deleteListenerRecord [("t", some [⟨3, false⟩])] "t" 9 = some b1
      ∧ alookup b1 "t" = some (some [⟨3, false⟩]))
    ∧ (∃ b1,
        deleteListenerRecord [("t", some [⟨2, true⟩, ⟨3, false⟩])] "t" 2
          = some b1
        ∧ alookup b1 "t" = some (some [⟨3, false⟩]))
    ∧ deleteListenerRecord [("u", some [⟨3, false⟩])] "t" 3 = none := by
  refine ⟨?_, ?_, ?_⟩
  · obtain ⟨b1, h1, h2, _⟩ := claim9_removeListener.1
      [("t", some [⟨3, false⟩])] "t" [⟨3, false⟩] 9 (by decide) (by decide)
    exact ⟨b1, h1, h2⟩
  · obtain ⟨b1, h1, h2, _⟩ := claim9_removeListener.2.1
      [("t", some [⟨2, true⟩, ⟨3, false⟩])] "t" [] [⟨3, false⟩] ⟨2, true⟩
      (by decide) (by decide)
    exact ⟨b1, h1, h2⟩
  · exact claim9_removeListener.2.2 [("u", some [⟨3, false⟩])] "t" 3
      (Or.inl (by decide))

end AmpWebPush
